import Mathlib

/-!
Shallow embedding of `src/app.py` (Sistema MCC, a Flask pricing application).

Modelling conventions:
* Python floats are modelled as exact rationals `ℚ`; `round(x, 2)` is
  modelled as round-half-to-even on rationals (`round2`).
* The JSON body of a request is modelled field by field: a field is either
  absent (`none`) or a value on which Python `float(...)` succeeds
  (`JVal.jnum`) or raises `ValueError` (`JVal.jbad`).
* The `calculos` table is an insertion-ordered list of rows; `fecha` (the
  insert timestamp) is represented by the position in that list, newest
  last, so `ORDER BY fecha DESC` is `List.reverse`.
* A storage failure of the SQL insert is modelled by the boolean oracle
  `insertOk`; the Flask session is `Option User`.
* An HTTP handler returns its status code, its JSON payload and the new
  table state.
-/

namespace MCC

/-- Python `round` to the nearest integer (round-half-to-even) on exact
rationals. -/
def bround (q : ℚ) : ℤ := if Int.fract q = 1/2 then 2 * round (q / 2) else round q

/-- Python `round(x, 2)`: round to two decimal places. -/
def round2 (q : ℚ) : ℚ := (bround (100 * q) : ℚ) / 100

/-- A JSON field value as consumed by `float(...)` in `api_calcular`: either
a value `float` converts to a number, or one on which it raises
`ValueError` (e.g. a non-numeric string). -/
inductive JVal where
  | jnum (q : ℚ)
  | jbad (s : String)
deriving DecidableEq

/-- Python `float(v)`: the number, or a raised `ValueError`. -/
def pyFloat : JVal → Except String ℚ
  | .jnum q => .ok q
  | .jbad s => .error ("could not convert string to float: " ++ s)

/-- The authenticated user held in the Flask session. -/
structure User where
  username : String
deriving DecidableEq

/-- The JSON body of a `POST /api/calcular` request (fields read via
`data.get` in app.py lines 360-365). -/
structure CalcRequest where
  producto : Option String
  precio_base : Option JVal
  ieps : Option JVal
  iva : Option JVal
  margen_ganancia : Option JVal
deriving DecidableEq

/-- One row of the `calculos` table (app.py lines 68-81): the stored
`CalculationRecord`. `id` and `fecha` are represented by the position in
the table list. -/
structure CalcRow where
  producto : String
  precio_base : ℚ
  ieps : ℚ
  iva : ℚ
  margen_ganancia : ℚ
  precio_final : ℚ
  ganancia : ℚ
  usuario : String
deriving DecidableEq

/-- A JSON response body: `{'success': True, 'id': ..., 'resultado': {...}}`
or `{'success': False, 'error': ...}`. The `resultado` dict is an
association list. -/
inductive Response where
  | success (id : Nat) (resultado : List (String × ℚ)) : Response
  | failure (error : String) : Response
deriving DecidableEq

/-- Field access into the `resultado` dict of a success response. -/
def respField (r : Response) (k : String) : Option ℚ :=
  match r with
  | .success _ fields => fields.lookup k
  | .failure _ => none

/- The pure price cascade, app.py lines 368-373. -/

/-- `importe_ieps = precio_base * (ieps / 100)` (app.py line 368). -/
def importe_ieps (precio_base ieps : ℚ) : ℚ := precio_base * (ieps / 100)

/-- `base_iva = precio_base + importe_ieps` (app.py line 369). -/
def base_iva (precio_base ieps : ℚ) : ℚ := precio_base + importe_ieps precio_base ieps

/-- `importe_iva = base_iva * (iva / 100)` (app.py line 370). -/
def importe_iva (precio_base ieps iva : ℚ) : ℚ := base_iva precio_base ieps * (iva / 100)

/-- `costo_total = precio_base + importe_ieps + importe_iva` (app.py line 371). -/
def costo_total (precio_base ieps iva : ℚ) : ℚ :=
  precio_base + importe_ieps precio_base ieps + importe_iva precio_base ieps iva

/-- `ganancia = costo_total * (margen / 100)` (app.py line 372). -/
def ganancia (precio_base ieps iva margen : ℚ) : ℚ :=
  costo_total precio_base ieps iva * (margen / 100)

/-- `precio_final = costo_total + ganancia` (app.py line 373). -/
def precio_final (precio_base ieps iva margen : ℚ) : ℚ :=
  costo_total precio_base ieps iva + ganancia precio_base ieps iva margen

/-- `POST /api/calcular` (app.py lines 356-410). Reads the request fields
with defaults `precio_base=0, ieps=0, iva=16, margen_ganancia=30`, converts
them with `float`, computes the cascade, then inserts one row whose
parameter tuple reads `session['user']['username']`; any raised exception
(float `ValueError`, session `KeyError`, or the insert failing — including
the `NOT NULL` constraint on `producto`) is caught and answered with
status 500 and nothing is committed. On success it answers 200 with the
`resultado` dict of app.py lines 398-406. -/
def api_calcular (req : CalcRequest) (sess : Option User) (insertOk : Bool)
    (db : List CalcRow) : Nat × Response × List CalcRow :=
  match pyFloat ((req.precio_base).getD (.jnum 0)),
        pyFloat ((req.ieps).getD (.jnum 0)),
        pyFloat ((req.iva).getD (.jnum 16)),
        pyFloat ((req.margen_ganancia).getD (.jnum 30)) with
  | .ok precio_base, .ok ieps, .ok iva, .ok margen =>
    match sess, req.producto, insertOk with
    | some u, some p, true =>
      (200,
       .success (db.length + 1)
         [("precio_base", precio_base),
          ("importe_ieps", round2 (importe_ieps precio_base ieps)),
          ("importe_iva", round2 (importe_iva precio_base ieps iva)),
          ("costo_total", round2 (costo_total precio_base ieps iva)),
          ("ganancia", round2 (ganancia precio_base ieps iva margen)),
          ("precio_final", round2 (precio_final precio_base ieps iva margen)),
          ("margen_porcentaje", margen)],
       db ++ [⟨p, precio_base, ieps, iva, margen,
               round2 (precio_final precio_base ieps iva margen),
               round2 (ganancia precio_base ieps iva margen), u.username⟩])
    | none, _, _ => (500, .failure "KeyError: user", db)
    | some _, none, _ =>
      (500, .failure "IntegrityError: NOT NULL constraint failed: calculos.producto", db)
    | some _, some _, false => (500, .failure "OperationalError", db)
  | _, _, _, _ => (500, .failure "ValueError", db)

/-- `GET /api/historial` (app.py lines 286-322): the slice
`LIMIT limit OFFSET (page-1)*limit` of the table ordered by `fecha DESC`
(newest first), together with `total`, `page` and
`total_pages = (total + limit - 1) // limit`. -/
def api_historial (page limit : Nat) (db : List CalcRow) :
    List CalcRow × Nat × Nat × Nat :=
  let offset := (page - 1) * limit
  let calculos := (db.reverse.drop offset).take limit
  let total := db.length
  (calculos, total, page, (total + limit - 1) / limit)

/-- The `allowed_routes` whitelist of `require_login` (app.py line 168). -/
def allowed_routes : List String := ["login", "static", "favicon"]

/-- Python `s.startswith(pre)`, modelled on the character lists of the
strings. -/
def pyStartswith (s pre : String) : Bool := pre.data.isPrefixOf s.data

/-- The `require_login` before-request hook (app.py lines 165-171): blocks
with a redirect to `/login` (`some "/login"`) exactly when the endpoint
name does not start with `api_`, is not in `allowed_routes`, and no user
is in the session; otherwise the handler runs (`none`). -/
def require_login (endpoint : Option String) (userInSession : Bool) : Option String :=
  match endpoint with
  | none => none
  | some ep =>
    if !(pyStartswith ep "api_") then
      if ep ∉ allowed_routes ∧ userInSession = false then some "/login"
      else none
    else none

/-- All endpoint names registered with `@app.route` in app.py. -/
def endpoints : List String :=
  ["index", "login", "logout", "dashboard", "calculadora", "historial",
   "productos", "reportes", "configuracion", "api_estadisticas",
   "api_historial", "api_formulas", "api_productos", "api_calcular",
   "api_exportar_excel", "admin_backup", "favicon", "health_check"]

/-- Every run of `api_calcular` either succeeds with status 200 and appends
exactly one row, or fails with status 500 and leaves the table unchanged. -/
lemma api_calcular_cases (req : CalcRequest) (sess : Option User) (ok : Bool)
    (db : List CalcRow) :
    ((api_calcular req sess ok db).1 = 200
      ∧ ∃ r, (api_calcular req sess ok db).2.2 = db ++ [r])
    ∨ ((api_calcular req sess ok db).1 = 500
      ∧ (api_calcular req sess ok db).2.2 = db) := by
  unfold api_calcular
  split
  · split
    · exact Or.inl ⟨rfl, _, rfl⟩
    · exact Or.inr ⟨rfl, rfl⟩
    · exact Or.inr ⟨rfl, rfl⟩
    · exact Or.inr ⟨rfl, rfl⟩
  · exact Or.inr ⟨rfl, rfl⟩

/-- A request whose `precio_base` field makes `float` raise is answered 500
with the table unchanged, whatever the session and the other fields. -/
lemma api_calcular_badbase (req : CalcRequest) (sess : Option User) (ok : Bool)
    (db : List CalcRow) (s : String) (h : req.precio_base = some (.jbad s)) :
    api_calcular req sess ok db = (500, .failure "ValueError", db) := by
  unfold api_calcular
  rw [h]
  rfl

/-- C2 counterexample: `api_calcular` is a registered route that is neither
login nor health, yet `require_login` does not block it for an
unauthenticated request — the handler runs. -/
theorem C2_counterexample :
    "api_calcular" ∈ endpoints
    ∧ "api_calcular" ≠ "login" ∧ "api_calcular" ≠ "health_check"
    ∧ require_login (some "api_calcular") false = none :=
  ⟨by decide, by decide, by decide, by decide⟩

/-- C2 amended: the session gate applies only to endpoints whose name does
not start with `api_`: such an endpoint outside the login/static/favicon
whitelist is redirected to login when no user is in the session, while
every endpoint starting with `api_` (all the JSON API endpoints) is never
blocked by `require_login`. -/
theorem C2_gating_scope :
    (∀ ep : String, pyStartswith ep "api_" = true →
      ∀ userIn : Bool, require_login (some ep) userIn = none)
    ∧ (∀ ep : String, pyStartswith ep "api_" = false → ep ∉ allowed_routes →
      require_login (some ep) false = some "/login") := by
  constructor
  · intro ep h userIn
    simp [require_login, h]
  · intro ep h hmem
    simp [require_login, h, hmem]

/-- C2 witness: the amended gate at the `api_calcular` and `dashboard`
endpoints. -/
theorem C2_gating_scope_witness :
    require_login (some "api_calcular") false = none
    ∧ require_login (some "dashboard") false = some "/login" :=
  ⟨C2_gating_scope.1 "api_calcular" (by decide) false,
   C2_gating_scope.2 "dashboard" (by decide) (by decide)⟩

/-- C3 counterexample: a request with basePrice = -5 is answered 200 and a
record is persisted — it is not rejected with a 4xx validation error. -/
theorem C3_counterexample :
    (api_calcular ⟨some "Vino", some (.jnum (-5)), some (.jnum 0),
        some (.jnum 16), some (.jnum 30)⟩ (some ⟨"admin"⟩) true []).1 = 200
    ∧ (api_calcular ⟨some "Vino", some (.jnum (-5)), some (.jnum 0),
        some (.jnum 16), some (.jnum 30)⟩ (some ⟨"admin"⟩) true
        []).2.2.length = 1 :=
  ⟨rfl, rfl⟩

/-- C3 amended: the endpoint performs no input validation: a request with
basePrice ≤ 0 or marginRate < 0 is computed and persisted like any other,
answered 200 with exactly one new record. -/
theorem C3_accepts_invalid (p : String) (u : User) (pb ie iv mg : ℚ)
    (db : List CalcRow) (_hinv : pb ≤ 0 ∨ mg < 0) :
    (api_calcular ⟨some p, some (.jnum pb), some (.jnum ie), some (.jnum iv),
        some (.jnum mg)⟩ (some u) true db).1 = 200
    ∧ (api_calcular ⟨some p, some (.jnum pb), some (.jnum ie), some (.jnum iv),
        some (.jnum mg)⟩ (some u) true db).2.2 =
      db ++ [⟨p, pb, ie, iv, mg, round2 (precio_final pb ie iv mg),
              round2 (ganancia pb ie iv mg), u.username⟩] :=
  ⟨rfl, rfl⟩

/-- C3 witness: the amended behaviour at basePrice = -5 with marginRate = 30
(negative base only), and at basePrice = 100 with marginRate = -10
(negative margin only). -/
theorem C3_accepts_invalid_witness :
    ((api_calcular ⟨some "Vino", some (.jnum (-5)), some (.jnum 0),
        some (.jnum 16), some (.jnum 30)⟩ (some ⟨"admin"⟩) true []).1 = 200
      ∧ (api_calcular ⟨some "Vino", some (.jnum (-5)), some (.jnum 0),
          some (.jnum 16), some (.jnum 30)⟩ (some ⟨"admin"⟩) true []).2.2 =
        [⟨"Vino", -5, 0, 16, 30, round2 (precio_final (-5) 0 16 30),
          round2 (ganancia (-5) 0 16 30), "admin"⟩])
    ∧ ((api_calcular ⟨some "Vino", some (.jnum 100), some (.jnum 0),
        some (.jnum 16), some (.jnum (-10))⟩ (some ⟨"admin"⟩) true []).1 = 200
      ∧ (api_calcular ⟨some "Vino", some (.jnum 100), some (.jnum 0),
          some (.jnum 16), some (.jnum (-10))⟩ (some ⟨"admin"⟩) true []).2.2 =
        [⟨"Vino", 100, 0, 16, -10, round2 (precio_final 100 0 16 (-10)),
          round2 (ganancia 100 0 16 (-10)), "admin"⟩]) :=
  ⟨C3_accepts_invalid "Vino" ⟨"admin"⟩ (-5) 0 16 30 []
    (Or.inl (by norm_num)),
   C3_accepts_invalid "Vino" ⟨"admin"⟩ 100 0 16 (-10) []
    (Or.inr (by norm_num))⟩

/-- C4 counterexample: a request with basePrice missing is answered 200 (it
is defaulted to 0, not rejected), and a request with a non-numeric
basePrice is answered 500 — neither is a 4xx. -/
theorem C4_counterexample :
    (api_calcular ⟨some "Arroz", none, some (.jnum 0), some (.jnum 16),
        some (.jnum 30)⟩ (some ⟨"admin"⟩) true []).1 = 200
    ∧ (api_calcular ⟨some "Arroz", some (.jbad "abc"), some (.jnum 0),
        some (.jnum 16), some (.jnum 30)⟩ (some ⟨"admin"⟩) true []).1 = 500 :=
  ⟨rfl, rfl⟩

/-- C4 amended: a missing basePrice is defaulted to 0 and the request
succeeds with 200, persisting a record with basePrice 0; a non-numeric
basePrice raises `ValueError`, which the handler catches and answers with
500, persisting nothing. -/
theorem C4_default_and_500 :
    (∀ (p : String) (u : User) (db : List CalcRow) (ie iv mg : ℚ),
      (api_calcular ⟨some p, none, some (.jnum ie), some (.jnum iv),
          some (.jnum mg)⟩ (some u) true db).1 = 200
      ∧ (api_calcular ⟨some p, none, some (.jnum ie), some (.jnum iv),
          some (.jnum mg)⟩ (some u) true db).2.2 =
        db ++ [⟨p, 0, ie, iv, mg, round2 (precio_final 0 ie iv mg),
                round2 (ganancia 0 ie iv mg), u.username⟩])
    ∧ (∀ (req : CalcRequest) (sess : Option User) (ok : Bool)
        (db : List CalcRow) (s : String), req.precio_base = some (.jbad s) →
      (api_calcular req sess ok db).1 = 500
      ∧ (api_calcular req sess ok db).2.2 = db) := by
  constructor
  · intro p u db ie iv mg
    exact ⟨rfl, rfl⟩
  · intro req sess ok db s h
    rw [api_calcular_badbase req sess ok db s h]
    exact ⟨rfl, rfl⟩

/-- C4 witness: the amended behaviour with basePrice missing, and with
basePrice the non-numeric string "abc". -/
theorem C4_default_and_500_witness :
    ((api_calcular ⟨some "Arroz", none, some (.jnum 0), some (.jnum 16),
        some (.jnum 30)⟩ (some ⟨"admin"⟩) true []).1 = 200
      ∧ (api_calcular ⟨some "Arroz", none, some (.jnum 0), some (.jnum 16),
          some (.jnum 30)⟩ (some ⟨"admin"⟩) true []).2.2 =
        [⟨"Arroz", 0, 0, 16, 30, round2 (precio_final 0 0 16 30),
          round2 (ganancia 0 0 16 30), "admin"⟩])
    ∧ ((api_calcular ⟨some "Arroz", some (.jbad "abc"), some (.jnum 0),
        some (.jnum 16), some (.jnum 30)⟩ (some ⟨"admin"⟩) true []).1 = 500
      ∧ (api_calcular ⟨some "Arroz", some (.jbad "abc"), some (.jnum 0),
          some (.jnum 16), some (.jnum 30)⟩ (some ⟨"admin"⟩) true []).2.2 = []) :=
  ⟨C4_default_and_500.1 "Arroz" ⟨"admin"⟩ [] 0 16 30,
   C4_default_and_500.2 _ (some ⟨"admin"⟩) true [] "abc" rfl⟩

/-- C5: every run of the calculation endpoint that succeeds (status 200)
appends exactly one record to the stored history, and every run that fails
(status other than 200: parse, session, constraint or storage failure)
leaves the stored history unchanged. -/
theorem C5_audit_log (req : CalcRequest) (sess : Option User) (ok : Bool)
    (db : List CalcRow) :
    ((api_calcular req sess ok db).1 = 200 →
      ∃ r, (api_calcular req sess ok db).2.2 = db ++ [r])
    ∧ ((api_calcular req sess ok db).1 ≠ 200 →
      (api_calcular req sess ok db).2.2 = db) := by
  rcases api_calcular_cases req sess ok db with ⟨h2, hr⟩ | ⟨h5, hdb⟩
  · exact ⟨fun _ => hr, fun hne => absurd h2 hne⟩
  · exact ⟨fun h2 => absurd (h5.symm.trans h2) (by norm_num), fun _ => hdb⟩

/-- C5 witness: one successful run appending one record, one unauthenticated
run (status 500) leaving the history empty. -/
theorem C5_audit_log_witness :
    (∃ r, (api_calcular ⟨some "Vino", some (.jnum 100), some (.jnum 30),
        some (.jnum 16), some (.jnum 40)⟩ (some ⟨"admin"⟩) true []).2.2 =
      [] ++ [r])
    ∧ (api_calcular ⟨some "Vino", some (.jnum 100), some (.jnum 30),
        some (.jnum 16), some (.jnum 40)⟩ none true []).2.2 = [] :=
  ⟨(C5_audit_log _ (some ⟨"admin"⟩) true []).1 rfl,
   (C5_audit_log _ none true []).2 (by decide)⟩

/-- C1: for every numeric input, the calculation endpoint computes its
breakdown by exactly the 6-step cascading order — excise on the base, VAT
on the excise-inclusive base, margin on the fully taxed cost — and on
basePrice=100, exciseRate=30, vatRate=16, marginRate=40 it yields
exciseAmount=30.00, vatBase=130.00, vatAmount=20.80, totalCost=150.80,
profit=60.32, finalPrice=211.12. -/
theorem C1_cascading_order :
    (∀ (pb er vr mr : ℚ) (p : String) (u : User) (db : List CalcRow),
      (api_calcular ⟨some p, some (.jnum pb), some (.jnum er), some (.jnum vr),
          some (.jnum mr)⟩ (some u) true db).2.1 =
        .success (db.length + 1)
          [("precio_base", pb),
           ("importe_ieps", round2 (pb * (er / 100))),
           ("importe_iva", round2 ((pb + pb * (er / 100)) * (vr / 100))),
           ("costo_total",
             round2 (pb + pb * (er / 100) + (pb + pb * (er / 100)) * (vr / 100))),
           ("ganancia",
             round2 ((pb + pb * (er / 100) + (pb + pb * (er / 100)) * (vr / 100))
               * (mr / 100))),
           ("precio_final",
             round2 (pb + pb * (er / 100) + (pb + pb * (er / 100)) * (vr / 100)
               + (pb + pb * (er / 100) + (pb + pb * (er / 100)) * (vr / 100))
                 * (mr / 100))),
           ("margen_porcentaje", mr)])
    ∧ importe_ieps 100 30 = 30
    ∧ base_iva 100 30 = 130
    ∧ importe_iva 100 30 16 = 104/5
    ∧ costo_total 100 30 16 = 754/5
    ∧ ganancia 100 30 16 40 = 1508/25
    ∧ precio_final 100 30 16 40 = 5278/25
    ∧ round2 (importe_ieps 100 30) = 30
    ∧ round2 (importe_iva 100 30 16) = 104/5
    ∧ round2 (costo_total 100 30 16) = 754/5
    ∧ round2 (ganancia 100 30 16 40) = 1508/25
    ∧ round2 (precio_final 100 30 16 40) = 5278/25 := by
  refine ⟨?_, ?_, ?_, ?_, ?_, ?_, ?_, ?_, ?_, ?_, ?_, ?_⟩
  · intro pb er vr mr p u db
    simp only [api_calcular, pyFloat, Option.getD, importe_ieps, base_iva,
      importe_iva, costo_total, ganancia, precio_final]
  · norm_num [importe_ieps]
  · norm_num [base_iva, importe_ieps]
  · norm_num [importe_iva, base_iva, importe_ieps]
  · norm_num [costo_total, importe_iva, base_iva, importe_ieps]
  · norm_num [ganancia, costo_total, importe_iva, base_iva, importe_ieps]
  · norm_num [precio_final, ganancia, costo_total, importe_iva, base_iva,
      importe_ieps]
  · norm_num [round2, bround, round_eq, Int.fract, importe_ieps]
  · norm_num [round2, bround, round_eq, Int.fract, importe_iva, base_iva,
      importe_ieps]
  · norm_num [round2, bround, round_eq, Int.fract, costo_total, importe_iva,
      base_iva, importe_ieps]
  · norm_num [round2, bround, round_eq, Int.fract, ganancia, costo_total,
      importe_iva, base_iva, importe_ieps]
  · norm_num [round2, bround, round_eq, Int.fract, precio_final, ganancia,
      costo_total, importe_iva, base_iva, importe_ieps]

/-- C6: for every basePrice > 0 and nonnegative rates, the cascade is
monotone: finalPrice ≥ totalCost ≥ vatBase ≥ basePrice. -/
theorem C6_monotone_chain (pb er vr mr : ℚ) (hpb : 0 < pb)
    (her : 0 ≤ er) (hvr : 0 ≤ vr) (hmr : 0 ≤ mr) :
    pb ≤ base_iva pb er ∧ base_iva pb er ≤ costo_total pb er vr
      ∧ costo_total pb er vr ≤ precio_final pb er vr mr := by
  unfold precio_final ganancia costo_total importe_iva base_iva importe_ieps
  have he : 0 ≤ pb * (er / 100) :=
    mul_nonneg hpb.le (div_nonneg her (by norm_num))
  have hvb : 0 < pb + pb * (er / 100) := by linarith
  have hv : 0 ≤ (pb + pb * (er / 100)) * (vr / 100) :=
    mul_nonneg hvb.le (div_nonneg hvr (by norm_num))
  have htc : 0 < pb + pb * (er / 100) + (pb + pb * (er / 100)) * (vr / 100) := by
    linarith
  have hg : 0 ≤ (pb + pb * (er / 100) + (pb + pb * (er / 100)) * (vr / 100))
      * (mr / 100) :=
    mul_nonneg htc.le (div_nonneg hmr (by norm_num))
  exact ⟨by linarith, by linarith, by linarith⟩

/-- C6 witness: the chain at basePrice=100, rates (30, 16, 40). -/
theorem C6_monotone_chain_witness :
    (100 : ℚ) ≤ base_iva 100 30 ∧ base_iva 100 30 ≤ costo_total 100 30 16
      ∧ costo_total 100 30 16 ≤ precio_final 100 30 16 40 :=
  C6_monotone_chain 100 30 16 40 (by norm_num) (by norm_num) (by norm_num)
    (by norm_num)

/-- C10: a calculation request arriving with no user in the session is
answered 500 — the session lookup happens while the INSERT parameter tuple
is built, before the insert runs — and no record is persisted, whatever the
request body and even when the insert itself would succeed. -/
theorem C10_no_session_500 (req : CalcRequest) (ok : Bool) (db : List CalcRow) :
    (api_calcular req none ok db).1 = 500
      ∧ (api_calcular req none ok db).2.2 = db := by
  unfold api_calcular
  split
  · exact ⟨rfl, rfl⟩
  · exact ⟨rfl, rfl⟩

/-- C7 counterexample: with all rates zero and basePrice = 0.333 the
computed finalPrice is 0.333, but the finalPrice stored and returned is the
rounded 0.33, which differs from basePrice. -/
theorem C7_counterexample :
    precio_final (333/1000) 0 0 0 = 333/1000
    ∧ (api_calcular ⟨some "Arroz", some (.jnum (333/1000)), some (.jnum 0),
        some (.jnum 0), some (.jnum 0)⟩ (some ⟨"admin"⟩) true []).2.2 =
      [⟨"Arroz", 333/1000, 0, 0, 0, 33/100, 0, "admin"⟩]
    ∧ respField ((api_calcular ⟨some "Arroz", some (.jnum (333/1000)),
        some (.jnum 0), some (.jnum 0), some (.jnum 0)⟩ (some ⟨"admin"⟩) true
        []).2.1) "precio_final" = some (33/100)
    ∧ ((33 : ℚ)/100) ≠ 333/1000 := by
  have h1 : round2 (precio_final (333/1000) 0 0 0) = 33/100 := by
    norm_num [round2, bround, round_eq, Int.fract, precio_final, ganancia,
      costo_total, importe_iva, base_iva, importe_ieps]
  have h2 : round2 (ganancia (333/1000) 0 0 0) = 0 := by
    norm_num [round2, bround, round_eq, Int.fract, ganancia, costo_total,
      importe_iva, base_iva, importe_ieps]
  refine ⟨?_, ?_, ?_, by norm_num⟩
  · norm_num [precio_final, ganancia, costo_total, importe_iva, base_iva,
      importe_ieps]
  · simp [api_calcular, pyFloat, h1, h2]
  · simp [api_calcular, pyFloat, respField, List.lookup, h1]

/-- C7 amended: with exciseRate = vatRate = marginRate = 0 the computed
finalPrice equals basePrice exactly, and the finalPrice stored and returned
is basePrice rounded to 2 decimal places; for basePrice=50 and rates
(0, 0, 20) the finalPrice is exactly 60.00. -/
theorem C7_zero_rates :
    (∀ pb : ℚ, precio_final pb 0 0 0 = pb)
    ∧ (∀ (pb : ℚ) (p : String) (u : User) (db : List CalcRow),
        (api_calcular ⟨some p, some (.jnum pb), some (.jnum 0), some (.jnum 0),
            some (.jnum 0)⟩ (some u) true db).2.2 =
          db ++ [⟨p, pb, 0, 0, 0, round2 pb, 0, u.username⟩]
        ∧ respField ((api_calcular ⟨some p, some (.jnum pb), some (.jnum 0),
            some (.jnum 0), some (.jnum 0)⟩ (some u) true db).2.1)
            "precio_final" = some (round2 pb))
    ∧ precio_final 50 0 0 20 = 60
    ∧ round2 (precio_final 50 0 0 20) = 60 := by
  have hfp : ∀ pb : ℚ, precio_final pb 0 0 0 = pb := by
    intro pb
    norm_num [precio_final, ganancia, costo_total, importe_iva, base_iva,
      importe_ieps]
  have hg : ∀ pb : ℚ, round2 (ganancia pb 0 0 0) = 0 := by
    intro pb
    norm_num [round2, bround, round_eq, Int.fract, ganancia, costo_total,
      importe_iva, base_iva, importe_ieps]
  refine ⟨hfp, ?_, ?_, ?_⟩
  · intro pb p u db
    constructor
    · simp [api_calcular, pyFloat, hfp pb, hg pb]
    · simp [api_calcular, pyFloat, respField, List.lookup, hfp pb]
  · norm_num [precio_final, ganancia, costo_total, importe_iva, base_iva,
      importe_ieps]
  · norm_num [round2, bround, round_eq, Int.fract, precio_final, ganancia,
      costo_total, importe_iva, base_iva, importe_ieps]

/-- C8: for every positive page and limit, the history endpoint returns the
slice of the records ordered newest first, reports the total record count,
and reports a page count equal to the ceiling of total/limit; with 25
records, page=2 and limit=10 it returns 10 records and 3 total pages. -/
theorem C8_pagination (page limit : Nat) (db : List CalcRow)
    (_hp : 0 < page) (hl : 0 < limit) :
    (api_historial page limit db).1 =
      (db.reverse.drop ((page - 1) * limit)).take limit
    ∧ (api_historial page limit db).2.1 = db.length
    ∧ (((api_historial page limit db).2.2.2 : ℕ) : ℤ) =
      ⌈(db.length : ℚ) / (limit : ℚ)⌉
    ∧ (db.length = 25 → page = 2 → limit = 10 →
        (api_historial page limit db).1.length = 10
        ∧ (api_historial page limit db).2.2.2 = 3) := by
  refine ⟨rfl, rfl, ?_, ?_⟩
  · show ((((db.length + limit - 1) / limit : ℕ)) : ℤ) =
      ⌈(db.length : ℚ) / (limit : ℚ)⌉
    set t := db.length with ht
    set c := (t + limit - 1) / limit with hc
    have h1 : c * limit ≤ t + limit - 1 := Nat.div_mul_le_self _ _
    have hdm := Nat.div_add_mod (t + limit - 1) limit
    have hmod : (t + limit - 1) % limit < limit := Nat.mod_lt _ hl
    rw [← hc] at hdm
    have hub : t ≤ c * limit := by
      rw [mul_comm]
      generalize hm : limit * c = m at hdm
      omega
    have hql : (0 : ℚ) < (limit : ℚ) := by exact_mod_cast hl
    symm
    rw [Int.ceil_eq_iff]
    constructor
    · push_cast
      rw [lt_div_iff₀ hql]
      have h1q : ((c : ℚ)) * limit + 1 ≤ (t : ℚ) + limit := by
        exact_mod_cast Nat.add_le_of_le_sub (by omega) h1 |>.trans (by omega)
      nlinarith
    · push_cast
      rw [div_le_iff₀ hql]
      exact_mod_cast hub
  · intro h25 hpg hlim
    subst hpg hlim
    constructor
    · simp [api_historial, h25]
    · simp [api_historial, h25]

/-- C8 witness: the pagination at page=2, limit=10 over a table of 25
records. -/
theorem C8_pagination_witness :
    (api_historial 2 10
      (List.replicate 25 (⟨"Arroz", 15, 0, 16, 30, 20, 5, "admin"⟩ :
        CalcRow))).1.length = 10
    ∧ (api_historial 2 10
      (List.replicate 25 (⟨"Arroz", 15, 0, 16, 30, 20, 5, "admin"⟩ :
        CalcRow))).2.2.2 = 3 :=
  (C8_pagination 2 10 _ (by norm_num) (by norm_num)).2.2.2 (by simp) rfl rfl

/-- C9 counterexample: the success response does not return the excise and
VAT rate inputs at all — `resultado` has no `ieps` or `iva` field — so the
three rate inputs are not all returned as given. -/
theorem C9_counterexample :
    respField ((api_calcular ⟨some "Vino", some (.jnum 100), some (.jnum 30),
        some (.jnum 16), some (.jnum 40)⟩ (some ⟨"admin"⟩) true []).2.1)
      "ieps" = none
    ∧ respField ((api_calcular ⟨some "Vino", some (.jnum 100), some (.jnum 30),
        some (.jnum 16), some (.jnum 40)⟩ (some ⟨"admin"⟩) true []).2.1)
      "iva" = none
    ∧ respField ((api_calcular ⟨some "Vino", some (.jnum 100), some (.jnum 30),
        some (.jnum 16), some (.jnum 40)⟩ (some ⟨"admin"⟩) true []).2.1)
      "precio_base" = some 100 := by
  refine ⟨?_, ?_, ?_⟩ <;> simp [api_calcular, pyFloat, respField, List.lookup]

/-- C9 amended: every derived monetary field present in the success response
(exciseAmount, vatAmount, totalCost, profit, finalPrice) is the computed
value rounded to 2 decimal places, and the rounded values have at most 2
decimal digits; the stored record keeps, of the derived fields, only
finalPrice and profit, both rounded; basePrice and the three rates are
stored unrounded as given; the response returns basePrice and marginRate
unrounded but does not return exciseRate or vatRate. -/
theorem C9_rounding (pb er vr mr : ℚ) (p : String) (u : User)
    (db : List CalcRow) :
    respField ((api_calcular ⟨some p, some (.jnum pb), some (.jnum er),
        some (.jnum vr), some (.jnum mr)⟩ (some u) true db).2.1)
      "importe_ieps" = some (round2 (importe_ieps pb er))
    ∧ respField ((api_calcular ⟨some p, some (.jnum pb), some (.jnum er),
        some (.jnum vr), some (.jnum mr)⟩ (some u) true db).2.1)
      "importe_iva" = some (round2 (importe_iva pb er vr))
    ∧ respField ((api_calcular ⟨some p, some (.jnum pb), some (.jnum er),
        some (.jnum vr), some (.jnum mr)⟩ (some u) true db).2.1)
      "costo_total" = some (round2 (costo_total pb er vr))
    ∧ respField ((api_calcular ⟨some p, some (.jnum pb), some (.jnum er),
        some (.jnum vr), some (.jnum mr)⟩ (some u) true db).2.1)
      "ganancia" = some (round2 (ganancia pb er vr mr))
    ∧ respField ((api_calcular ⟨some p, some (.jnum pb), some (.jnum er),
        some (.jnum vr), some (.jnum mr)⟩ (some u) true db).2.1)
      "precio_final" = some (round2 (precio_final pb er vr mr))
    ∧ respField ((api_calcular ⟨some p, some (.jnum pb), some (.jnum er),
        some (.jnum vr), some (.jnum mr)⟩ (some u) true db).2.1)
      "precio_base" = some pb
    ∧ respField ((api_calcular ⟨some p, some (.jnum pb), some (.jnum er),
        some (.jnum vr), some (.jnum mr)⟩ (some u) true db).2.1)
      "margen_porcentaje" = some mr
    ∧ respField ((api_calcular ⟨some p, some (.jnum pb), some (.jnum er),
        some (.jnum vr), some (.jnum mr)⟩ (some u) true db).2.1) "ieps" = none
    ∧ respField ((api_calcular ⟨some p, some (.jnum pb), some (.jnum er),
        some (.jnum vr), some (.jnum mr)⟩ (some u) true db).2.1) "iva" = none
    ∧ (api_calcular ⟨some p, some (.jnum pb), some (.jnum er), some (.jnum vr),
        some (.jnum mr)⟩ (some u) true db).2.2 =
      db ++ [⟨p, pb, er, vr, mr, round2 (precio_final pb er vr mr),
              round2 (ganancia pb er vr mr), u.username⟩]
    ∧ (∀ q : ℚ, ((100 : ℚ) * round2 q).den = 1) := by
  refine ⟨?_, ?_, ?_, ?_, ?_, ?_, ?_, ?_, ?_, rfl, ?_⟩
  · simp [api_calcular, pyFloat, respField, List.lookup]
  · simp [api_calcular, pyFloat, respField, List.lookup]
  · simp [api_calcular, pyFloat, respField, List.lookup]
  · simp [api_calcular, pyFloat, respField, List.lookup]
  · simp [api_calcular, pyFloat, respField, List.lookup]
  · simp [api_calcular, pyFloat, respField, List.lookup]
  · simp [api_calcular, pyFloat, respField, List.lookup]
  · simp [api_calcular, pyFloat, respField, List.lookup]
  · simp [api_calcular, pyFloat, respField, List.lookup]
  · intro q
    have h : (100 : ℚ) * round2 q = (bround (100 * q) : ℚ) := by
      rw [round2]
      ring
    rw [h]
    exact Rat.den_intCast _

end MCC
